import Mathlib

/-!
Shallow embedding of the desktop-file parser (`src/parser.rs`) together with
the record types it operates on.  The parser manipulates the internal-shaped
records (`src/internal_structs.rs`): optional fields throughout, an entry-type
variant carrying the raw tag string, and a `Header` marker enum whose variants
are fixed by the constructors and patterns used in `parser.rs`.

Rust strings are Lean `String`s; the character-by-character processing of the
source is mirrored by structural recursion over `String.data`.  A Rust panic
(out-of-bounds index) is modelled by an explicit `panic` outcome rather than a
partial function.
-/

namespace DesktopFile

/-- Rust `char::len_utf8`: the number of bytes of the character in UTF-8.
`char_indices` positions (the `col_number` of a character) advance by it. -/
def utf8_len (c : Char) : Nat :=
  if c.val < 0x80 then 1
  else if c.val < 0x800 then 2
  else if c.val < 0x10000 then 3
  else 4

/-- Rust `char::is_control`: the Unicode `Cc` category, exactly
U+0000–U+001F and U+007F–U+009F. -/
def is_control (c : Char) : Bool :=
  c.val < 0x20 || (0x7F ≤ c.val && c.val ≤ 0x9F)

/-- Whitespace as trimmed by `str::trim` / `str::trim_end` (the ASCII fragment;
all inputs appearing in the development are ASCII). -/
def is_ws (c : Char) : Bool :=
  c = ' ' || c = '\t' || c = '\n' || c = '\r'

/-- Rust `str::trim_end` on the character list. -/
def trim_end_chars (l : List Char) : List Char :=
  (l.reverse.dropWhile is_ws).reverse

/-- Rust `str::trim` on the character list. -/
def trim_chars (l : List Char) : List Char :=
  (l.dropWhile is_ws).reverse.dropWhile is_ws |>.reverse

/-- Rust `str::split` with a one-character pattern: splits on every occurrence
of `sep`, keeping empty segments (accumulator holds the current segment
reversed). -/
def split_char_aux (sep : Char) : List Char → List Char → List (List Char)
  | [], acc => [acc.reverse]
  | c :: cs, acc =>
    if c = sep then acc.reverse :: split_char_aux sep cs []
    else split_char_aux sep cs (c :: acc)

/-- Rust `str::split` with a one-character pattern, on `String`s. -/
def split_on_char (sep : Char) (s : String) : List String :=
  (split_char_aux sep s.data []).map (fun l => String.mk l)

/-- Rust `str::strip_prefix`: `some rest` when the first list is a leading
segment of the second. -/
def drop_pre : List Char → List Char → Option (List Char)
  | [], rest => some rest
  | _, [] => none
  | p :: ps, c :: cs => if p = c then drop_pre ps cs else none

/-- One element of `Line::content` (`struct Character` in `parser.rs`): a
single character with its position.  `col_number` is the UTF-8 byte offset
produced by `char_indices`. -/
structure Character where
  content : Char
  line_number : Nat
  col_number : Nat
deriving DecidableEq, Repr

/-- `char_indices` over a character list starting at byte offset `off`. -/
def char_indices (off : Nat) : List Char → List (Nat × Char)
  | [] => []
  | c :: cs => (off, c) :: char_indices (off + utf8_len c) cs

/-- `struct Line` in `parser.rs`. -/
structure Line where
  content : List Character
  line_number : Nat
deriving DecidableEq, Repr

/-- `Line::from_data`: trim trailing whitespace, attach byte offsets via
`char_indices`, and drop a single space standing at column 0. -/
def Line.from_data (line : String) (line_number : Nat) : Line :=
  { content :=
      ((char_indices 0 (trim_end_chars line.data)).map
          (fun p => { content := p.2, line_number := line_number, col_number := p.1 })).filter
        (fun ch => !(ch.col_number == 0 && ch.content == ' '))
    line_number := line_number }

/-- `enum LineType` in `parser.rs`. -/
inductive LineType
  | Header
  | ValPair
deriving DecidableEq, Repr

/-- `Line::line_type` reads `self.content[0]`; when `content` is empty the
Rust code panics with an index-out-of-bounds, modelled as `none`. -/
def Line.line_type (l : Line) : Option LineType :=
  match l.content with
  | [] => none
  | ch :: _ => some (if ch.content = '[' then LineType.Header else LineType.ValPair)

/-- `filter_lines`: split the input on newlines, enumerate (0-based), keep the
lines that are non-empty and whose trimmed text does not start with a comment
marker, and build `Line`s carrying the enumeration index. -/
def filter_lines (input : String) : List Line :=
  (((split_on_char '\n' input).enum).filter
      (fun p => p.2 != "" && !(match trim_chars p.2.data with
                               | '#' :: _ => true
                               | _ => false))).map
    (fun p => Line.from_data p.2 p.1)

/-- `enum ParseError` in `src/structs.rs`, with the message strings produced
at the call sites in `parser.rs`. -/
inductive ParseError
  | UnacceptableCharacter (ch : String) (row : Nat) (col : Nat) (msg : String)
  | SyntaxError (msg : String) (row : Nat) (col : Nat)
  | RepetitiveEntry (msg : String) (row : Nat) (col : Nat)
  | FormatError (msg : String) (row : Nat) (col : Nat)
  | InternalError (msg : String) (row : Nat) (col : Nat)
  | RepetitiveKey (key : String) (row : Nat) (col : Nat)
  | KeyError (msg : String)
deriving DecidableEq, Repr

/-- Header marker: the `crate::Header` enum `parse_header` produces and
`parse` matches on; its three variants are fixed by those uses
(`Header::DesktopEntry`, `Header::DesktopAction { name }`,
`Header::Other { name }`). -/
inductive Header
  | DesktopEntry
  | DesktopAction (name : String)
  | Other (name : String)
deriving DecidableEq, Repr

/-- `HeaderParseState` in `parse_header`. -/
inductive HState
  | Idle
  | Content
deriving DecidableEq, Repr

/-- The character loop of `parse_header`.  The source compares the enumerate
index with `input.content.len() - 1`; a character is at that last index
exactly when the remaining list is empty, which is the test used here. -/
def parse_header_aux : HState → String → List Character → Except ParseError String
  | _, result, [] => Except.ok result
  | HState.Idle, result, ch :: rest =>
    if ch.content = '[' then parse_header_aux HState.Content result rest
    else Except.error (ParseError.InternalError "line is mis-classified as a header"
      ch.line_number ch.col_number)
  | HState.Content, result, ch :: rest =>
    if ch.content = ']' then
      if rest = [] then parse_header_aux HState.Content result rest
      else Except.error (ParseError.SyntaxError "nothing is expected after \"]\""
        ch.line_number ch.col_number)
    else if ch.content = '[' then
      Except.error (ParseError.UnacceptableCharacter (String.mk [ch.content])
        ch.line_number ch.col_number
        ("\"" ++ String.mk [ch.content] ++ "\" is not accepted in header"))
    else if is_control ch.content then
      Except.error (ParseError.UnacceptableCharacter (String.mk [ch.content])
        ch.line_number ch.col_number "none")
    else parse_header_aux HState.Content (result ++ String.mk [ch.content]) rest

/-- `parse_header`: run the character loop, then map the accumulated name to a
marker (`"Desktop Entry"`, the `"Desktop Action "` prefixed form, or other). -/
def parse_header (input : Line) : Except ParseError Header :=
  match parse_header_aux HState.Idle "" input.content with
  | Except.error e => Except.error e
  | Except.ok result =>
    if result = "Desktop Entry" then Except.ok Header.DesktopEntry
    else
      match drop_pre "Desktop Action ".data result.data with
      | some remain => Except.ok (Header.DesktopAction (String.mk remain))
      | none => Except.ok (Header.Other result)

/-- `struct LinePart` in `parser.rs`. -/
structure LinePart where
  key : String
  locale : Option String
  value : String
  line_number : Nat
deriving DecidableEq, Repr

/-- `enum State` in `split_into_parts`. -/
inductive SState
  | Key
  | KeyLocale
  | LocaleToValue
  | Value
deriving DecidableEq, Repr

/-- The exact character set the `Key` state of `split_into_parts` accepts:
the source enumerates `"A"…"Z" | "a"…"z" | "1"…"9" | "0" | "-"`. -/
def is_key_char (c : Char) : Bool :=
  ('A' ≤ c && c ≤ 'Z') || ('a' ≤ c && c ≤ 'z') || ('0' ≤ c && c ≤ '9') || c = '-'

/-- The character loop of `split_into_parts`. -/
def split_aux : SState → LinePart → List Character → Except ParseError LinePart
  | _, part, [] => Except.ok part
  | SState.Key, part, ch :: rest =>
    if ch.content = '[' then split_aux SState.KeyLocale { part with locale := some "" } rest
    else if ch.content = '=' then split_aux SState.Value part rest
    else if is_key_char ch.content then
      split_aux SState.Key { part with key := part.key ++ String.mk [ch.content] } rest
    else Except.error (ParseError.SyntaxError
      "Keys shouldn't have characters other than A-Za-z0-9-" ch.line_number ch.col_number)
  | SState.KeyLocale, part, ch :: rest =>
    if ch.content = ']' then split_aux SState.LocaleToValue part rest
    else split_aux SState.KeyLocale
      { part with locale := part.locale.map (fun s => s ++ String.mk [ch.content]) } rest
  | SState.LocaleToValue, part, ch :: rest =>
    if ch.content = '=' then split_aux SState.Value part rest
    else Except.error (ParseError.SyntaxError "Expect \"=\" after \"=\""
      ch.line_number ch.col_number)
  | SState.Value, part, ch :: rest =>
    split_aux SState.Value { part with value := part.value ++ String.mk [ch.content] } rest

/-- `split_into_parts`: tokenize a key-value line into `LinePart`. -/
def split_into_parts (line : Line) : Except ParseError LinePart :=
  split_aux SState.Key
    { key := "", locale := none, value := "", line_number := line.line_number } line.content

/-- `HashMap::contains_key` over the association-list model of the map. -/
def hm_contains {α : Type} (m : List (String × α)) (k : String) : Bool :=
  m.any (fun p => p.1 == k)

/-- `HashMap::insert` over the association-list model.  Every call site in
`parser.rs` first checks `contains_key`, so insertion only ever happens for an
absent key and appending is faithful. -/
def hm_insert {α : Type} (m : List (String × α)) (k : String) (v : α) : List (String × α) :=
  m ++ [(k, v)]

/-- `LocaleStringInternal` (`src/internal_structs.rs`), the locale-string shape
`parser.rs` operates on: optional default plus locale→string variants. -/
structure LocaleString where
  default : Option String
  variants : List (String × String)
deriving DecidableEq, Repr

/-- `Default::default()` for `LocaleString`. -/
def LocaleString.empty : LocaleString := { default := none, variants := [] }

/-- `LocaleStringListInternal` (`src/internal_structs.rs`). -/
structure LocaleStringList where
  default : Option (List String)
  variants : List (String × List String)
deriving DecidableEq, Repr

/-- `Default::default()` for `LocaleStringList`. -/
def LocaleStringList.empty : LocaleStringList := { default := none, variants := [] }

/-- `struct IconString` (`src/structs.rs`). -/
structure IconString where
  content : String
deriving DecidableEq, Repr

/-- The entry-type variant the parser stores (`EntryTypeInternal` in
`src/internal_structs.rs`, the shape `parser.rs`'s uses are consistent with:
it pattern-matches a payload-free `Link` and the unknown case carries the raw
string). -/
inductive EntryType
  | Application
  | Link
  | Directory
  | Unknown (s : String)
deriving DecidableEq, Repr

/-- `EntryTypeInternal::from(&str)`: the three recognized literals, anything
else preserved inside `Unknown`. -/
def EntryType.from_str (value : String) : EntryType :=
  if value = "Application" then EntryType.Application
  else if value = "Link" then EntryType.Link
  else if value = "Directory" then EntryType.Directory
  else EntryType.Unknown value

/-- The primary record as `parser.rs` fills it (`DesktopEntryInternal` in
`src/internal_structs.rs`): every field optional. -/
structure DesktopEntry where
  entry_type : Option EntryType
  version : Option String
  name : Option LocaleString
  generic_name : Option LocaleString
  no_display : Option Bool
  comment : Option LocaleString
  icon : Option IconString
  hidden : Option Bool
  only_show_in : Option (List String)
  not_show_in : Option (List String)
  dbus_activatable : Option Bool
  try_exec : Option String
  exec : Option String
  path : Option String
  terminal : Option Bool
  actions : Option (List String)
  mime_type : Option (List String)
  categories : Option (List String)
  implements : Option (List String)
  keywords : Option LocaleStringList
  startup_notify : Option Bool
  startup_wm_class : Option String
  url : Option String
  prefers_non_default_gpu : Option Bool
  single_main_window : Option Bool
deriving DecidableEq, Repr

/-- `Default::default()` for the primary record. -/
def DesktopEntry.empty : DesktopEntry :=
  { entry_type := none, version := none, name := none, generic_name := none
    no_display := none, comment := none, icon := none, hidden := none
    only_show_in := none, not_show_in := none, dbus_activatable := none
    try_exec := none, exec := none, path := none, terminal := none
    actions := none, mime_type := none, categories := none, implements := none
    keywords := none, startup_notify := none, startup_wm_class := none
    url := none, prefers_non_default_gpu := none, single_main_window := none }

/-- A sub-record (`DesktopActionInternal` in `src/internal_structs.rs`):
`ref_name` from the header, optional name/exec/icon. -/
structure DesktopAction where
  ref_name : String
  name : Option LocaleString
  exec : Option String
  icon : Option IconString
deriving DecidableEq, Repr

/-- `Default::default()` for a sub-record (before `ref_name` is set). -/
def DesktopAction.empty : DesktopAction :=
  { ref_name := "", name := none, exec := none, icon := none }

/-- The value `parse` returns: the primary record plus the sub-records in file
order. -/
structure DesktopFileR where
  entry : DesktopEntry
  actions : List DesktopAction
deriving DecidableEq, Repr

/-- `set_locale_str`: locale present ⇒ insert into variants unless that locale
already exists; no locale ⇒ set the default unless already set. -/
def set_locale_str (parts : LinePart) (str : LocaleString) : Except ParseError LocaleString :=
  match parts.locale with
  | some locale =>
    if hm_contains str.variants locale then
      Except.error (ParseError.RepetitiveKey parts.key parts.line_number 0)
    else Except.ok { str with variants := hm_insert str.variants locale parts.value }
  | none =>
    if str.default = none then Except.ok { str with default := some parts.value }
    else Except.error (ParseError.RepetitiveKey parts.key parts.line_number 0)

/-- `set_optional_locale_str`: run `set_locale_str` on the stored value or on a
fresh default one. -/
def set_optional_locale_str (parts : LinePart) (opt : Option LocaleString) :
    Except ParseError (Option LocaleString) :=
  match opt with
  | some str => (set_locale_str parts str).map some
  | none => (set_locale_str parts LocaleString.empty).map some

/-- `str::parse::<bool>()`: accepts exactly the literals `true` and `false`. -/
def parse_bool (s : String) : Option Bool :=
  if s = "true" then some true
  else if s = "false" then some false
  else none

/-- `set_bool`: coerce the raw value, a non-boolean literal is a syntax
error. -/
def set_bool (parts : LinePart) : Except ParseError Bool :=
  match parse_bool parts.value with
  | some b => Except.ok b
  | none => Except.error (ParseError.SyntaxError "Property's value needs to be bool"
      parts.line_number 0)

/-- `set_optional_bool`: repetition check, then `set_bool`. -/
def set_optional_bool (parts : LinePart) (opt : Option Bool) :
    Except ParseError (Option Bool) :=
  match opt with
  | some _ => Except.error (ParseError.RepetitiveKey parts.key parts.line_number 0)
  | none => (set_bool parts).map some

/-- `set_optional_list`: repetition check, then split the raw value on `','`
(every segment kept, no trailing-empty handling). -/
def set_optional_list (parts : LinePart) (opt : Option (List String)) :
    Except ParseError (Option (List String)) :=
  if !opt.isNone then
    Except.error (ParseError.RepetitiveKey parts.key parts.line_number 0)
  else Except.ok (some (split_on_char ',' parts.value))

/-- `set_optional_str`: repetition check, then store the raw value. -/
def set_optional_str (parts : LinePart) (opt : Option String) :
    Except ParseError (Option String) :=
  if !opt.isNone then
    Except.error (ParseError.RepetitiveKey parts.key parts.line_number 0)
  else Except.ok (some parts.value)

/-- `set_optional_icon_str`: repetition check, then wrap the raw value. -/
def set_optional_icon_str (parts : LinePart) (opt : Option IconString) :
    Except ParseError (Option IconString) :=
  if !opt.isNone then
    Except.error (ParseError.RepetitiveKey parts.key parts.line_number 0)
  else Except.ok (some { content := parts.value })

/-- The `"Keywords"` arm of `fill_entry_val`: a guard rejects any second
`Keywords` line outright; after it, the source still matches on the stored
value (the `some` branch is unreachable but reproduced faithfully), and the
fresh value is built from the `','`-split list and the optional locale. -/
def fill_keywords (entry : DesktopEntry) (parts : LinePart) :
    Except ParseError DesktopEntry :=
  if !entry.keywords.isNone then
    Except.error (ParseError.RepetitiveKey "Keywords" parts.line_number 0)
  else
    let split := split_on_char ',' parts.value
    match entry.keywords with
    | some kwds =>
      match parts.locale with
      | some locale =>
        if hm_contains kwds.variants locale then
          Except.error (ParseError.RepetitiveKey "Keywords" parts.line_number 0)
        else Except.ok { entry with
          keywords := some { kwds with variants := hm_insert kwds.variants locale split } }
      | none =>
        if !kwds.default.isNone then
          Except.error (ParseError.RepetitiveKey "Keywords" parts.line_number 0)
        else Except.ok { entry with keywords := some { kwds with default := some split } }
    | none =>
      match parts.locale with
      | some locale =>
        Except.ok { entry with
          keywords := some { LocaleStringList.empty with
            variants := hm_insert LocaleStringList.empty.variants locale split } }
      | none =>
        Except.ok { entry with
          keywords := some { LocaleStringList.empty with default := some split } }

/-- `fill_entry_val`: dispatch on the exact key string into the primary
record's fields; unmatched keys leave the record unchanged.  The match arms
are spelled exactly as in the source (`"DbusActivatable"`, `"StarupNotify"`,
`"StartupWmClass"`; no arm for `NotShowIn`). -/
def fill_entry_val (entry : DesktopEntry) (parts : LinePart) :
    Except ParseError DesktopEntry :=
  match parts.key with
  | "Type" =>
    if !entry.entry_type.isNone then
      Except.error (ParseError.RepetitiveKey "Type" parts.line_number 0)
    else Except.ok { entry with entry_type := some (EntryType.from_str parts.value) }
  | "Version" => (set_optional_str parts entry.version).map
      (fun v => { entry with version := v })
  | "Name" => (set_optional_locale_str parts entry.name).map
      (fun v => { entry with name := v })
  | "GenericName" => (set_optional_locale_str parts entry.generic_name).map
      (fun v => { entry with generic_name := v })
  | "NoDisplay" => (set_optional_bool parts entry.no_display).map
      (fun v => { entry with no_display := v })
  | "Comment" => (set_optional_locale_str parts entry.comment).map
      (fun v => { entry with comment := v })
  | "Icon" => (set_optional_icon_str parts entry.icon).map
      (fun v => { entry with icon := v })
  | "Hidden" => (set_optional_bool parts entry.hidden).map
      (fun v => { entry with hidden := v })
  | "OnlyShowIn" => (set_optional_list parts entry.only_show_in).map
      (fun v => { entry with only_show_in := v })
  | "DbusActivatable" => (set_optional_bool parts entry.dbus_activatable).map
      (fun v => { entry with dbus_activatable := v })
  | "TryExec" => (set_optional_str parts entry.try_exec).map
      (fun v => { entry with try_exec := v })
  | "Exec" => (set_optional_str parts entry.exec).map
      (fun v => { entry with exec := v })
  | "Path" => (set_optional_str parts entry.path).map
      (fun v => { entry with path := v })
  | "Terminal" => (set_optional_bool parts entry.terminal).map
      (fun v => { entry with terminal := v })
  | "Actions" => (set_optional_list parts entry.actions).map
      (fun v => { entry with actions := v })
  | "MimeType" => (set_optional_list parts entry.mime_type).map
      (fun v => { entry with mime_type := v })
  | "Categories" => (set_optional_list parts entry.categories).map
      (fun v => { entry with categories := v })
  | "Implements" => (set_optional_list parts entry.implements).map
      (fun v => { entry with implements := v })
  | "Keywords" => fill_keywords entry parts
  | "StarupNotify" => (set_optional_bool parts entry.startup_notify).map
      (fun v => { entry with startup_notify := v })
  | "StartupWmClass" => (set_optional_str parts entry.startup_wm_class).map
      (fun v => { entry with startup_wm_class := v })
  | "URL" => (set_optional_str parts entry.url).map
      (fun v => { entry with url := v })
  | "PrefersNonDefaultGPU" => (set_optional_bool parts entry.prefers_non_default_gpu).map
      (fun v => { entry with prefers_non_default_gpu := v })
  | "SingleMainWindow" => (set_optional_bool parts entry.single_main_window).map
      (fun v => { entry with single_main_window := v })
  | _ => Except.ok entry

/-- `fill_action_val`: the sub-record dispatch (`Name`, `Exec`, `Icon`;
anything else ignored). -/
def fill_action_val (action : DesktopAction) (parts : LinePart) :
    Except ParseError DesktopAction :=
  match parts.key with
  | "Name" => (set_optional_locale_str parts action.name).map
      (fun v => { action with name := v })
  | "Exec" => (set_optional_str parts action.exec).map
      (fun v => { action with exec := v })
  | "Icon" => (set_optional_icon_str parts action.icon).map
      (fun v => { action with icon := v })
  | _ => Except.ok action

/-- `key_err`. -/
def key_err (msg : String) : Except ParseError Unit :=
  Except.error (ParseError.KeyError msg)

/-- `check_locale_str`: a present locale string must carry a default. -/
def check_locale_str (opt : Option LocaleString) (field : String) :
    Except ParseError Unit :=
  match opt with
  | some v =>
    if v.default.isNone then
      key_err ("The default value of " ++ field ++ " is required")
    else Except.ok ()
  | none => Except.ok ()

/-- `check_entry`: the post-scan validator over the primary record only
(required type, required name with default, URL for `Link`, defaults for
`GenericName`/`Comment`). -/
def check_entry (entry : DesktopEntry) : Except ParseError Unit :=
  match entry.entry_type with
  | some t =>
    match entry.name with
    | some n =>
      if n.default.isNone then key_err "The default value of name is required"
      else
        match t with
        | EntryType.Link =>
          if entry.url.isNone then key_err "URL is required for Link"
          else do
            let _ ← check_locale_str entry.generic_name "GenericName"
            check_locale_str entry.comment "Comment"
        | _ => do
          let _ ← check_locale_str entry.generic_name "GenericName"
          check_locale_str entry.comment "Comment"
    | none => key_err "Name is required"
  | none => key_err "Type is required"

/-- The `current_target` cursor (`enum EntryType` local to `parser.rs`:
`Entry(..)` or `Action(usize)`). -/
inductive Cursor
  | Entry
  | Action (index : Nat)
deriving DecidableEq, Repr

/-- The mutable state of `parse`'s scan loop. -/
structure PState where
  entry : DesktopEntry
  is_entry_found : Bool
  is_first_entry : Bool
  actions : List DesktopAction
  target : Cursor
deriving DecidableEq, Repr

/-- Outcome of processing one line or of the whole loop: a Rust panic, an
early `Err` return, or the next state. -/
inductive Step
  | panic
  | err (e : ParseError)
  | next (st : PState)
deriving DecidableEq, Repr

/-- The body of `parse`'s `for` loop for one line. -/
def parse_line (st : PState) (line : Line) : Step :=
  match st.target with
  | Cursor.Entry =>
    match line.line_type with
    | none => Step.panic
    | some LineType.Header =>
      match parse_header line with
      | Except.error e => Step.err e
      | Except.ok Header.DesktopEntry =>
        if st.is_entry_found then
          Step.err (ParseError.RepetitiveEntry "none" line.line_number 0)
        else if !st.is_first_entry then
          Step.err (ParseError.InternalError
            "it should be able to return error when entry is not in the first header"
            line.line_number 0)
        else Step.next { st with is_entry_found := true, is_first_entry := false }
      | Except.ok (Header.DesktopAction name) =>
        if !st.is_entry_found then
          Step.err (ParseError.InternalError
            "it should be able to return error when an action appears before an entry"
            line.line_number 0)
        else if st.is_first_entry then
          Step.err (ParseError.FormatError "none" line.line_number 0)
        else
          Step.next { st with
            actions := st.actions ++ [{ DesktopAction.empty with ref_name := name }]
            target := Cursor.Action st.actions.length }
      | Except.ok (Header.Other _) => Step.next st
    | some LineType.ValPair =>
      match split_into_parts line with
      | Except.error e => Step.err e
      | Except.ok parts =>
        match fill_entry_val st.entry parts with
        | Except.error e => Step.err e
        | Except.ok entry => Step.next { st with entry := entry }
  | Cursor.Action index =>
    match line.line_type with
    | none => Step.panic
    | some LineType.Header =>
      match parse_header line with
      | Except.error e => Step.err e
      | Except.ok Header.DesktopEntry =>
        Step.err (ParseError.RepetitiveEntry "There should only be one entry on top"
          line.line_number 0)
      | Except.ok (Header.DesktopAction name) =>
        Step.next { st with
          actions := st.actions ++ [{ DesktopAction.empty with ref_name := name }]
          target := Cursor.Action st.actions.length }
      | Except.ok (Header.Other _) => Step.next st
    | some LineType.ValPair =>
      match split_into_parts line with
      | Except.error e => Step.err e
      | Except.ok parts =>
        match st.actions.get? index with
        | none => Step.panic
        | some action =>
          match fill_action_val action parts with
          | Except.error e => Step.err e
          | Except.ok action2 => Step.next { st with actions := st.actions.set index action2 }

/-- The scan loop over the filtered lines. -/
def parse_loop (st : PState) : List Line → Step
  | [] => Step.next st
  | line :: rest =>
    match parse_line st line with
    | Step.panic => Step.panic
    | Step.err e => Step.err e
    | Step.next st2 => parse_loop st2 rest

/-- Result of `parse`: a Rust panic, `Err(ParseError)`, or `Ok(DesktopFile)`. -/
inductive POut
  | panic
  | err (e : ParseError)
  | ok (f : DesktopFileR)
deriving DecidableEq, Repr

/-- The initial loop state of `parse`. -/
def init_state : PState :=
  { entry := DesktopEntry.empty, is_entry_found := false, is_first_entry := true
    actions := [], target := Cursor.Entry }

/-- `parse`: filter the lines, run the scan loop, then validate the primary
record with `check_entry`. -/
def parse (input : String) : POut :=
  match parse_loop init_state (filter_lines input) with
  | Step.panic => POut.panic
  | Step.err e => POut.err e
  | Step.next st =>
    match check_entry st.entry with
    | Except.error e => POut.err e
    | Except.ok _ => POut.ok { entry := st.entry, actions := st.actions }

/-- The characters of a `Line`'s tail as a plain string (used to state what
the tokenizer's value state accumulates). -/
def chars_str (cs : List Character) : String :=
  String.mk (cs.map (fun c => c.content))

theorem str_append_assoc (s t u : String) : s ++ t ++ u = s ++ (t ++ u) := by
  apply String.ext
  simp [String.data_append]

theorem split_aux_value_appends_verbatim :
    ∀ (cs : List Character) (key : String) (loc : Option String) (val : String) (n : Nat),
      split_aux SState.Value ⟨key, loc, val, n⟩ cs
        = Except.ok ⟨key, loc, val ++ chars_str cs, n⟩ := by
  intro cs
  induction cs with
  | nil =>
    intro key loc val n
    have h : val ++ chars_str [] = val := by
      apply String.ext
      simp [String.data_append, chars_str]
    rw [split_aux, h]
  | cons c cs ih =>
    intro key loc val n
    rw [split_aux]
    show split_aux SState.Value ⟨key, loc, val ++ String.mk [c.content], n⟩ cs = _
    rw [ih]
    have h : val ++ String.mk [c.content] ++ chars_str cs = val ++ chars_str (c :: cs) := by
      apply String.ext
      simp [String.data_append, chars_str]
    rw [h]

theorem parse_header_aux_syntax_only_from_inner_bracket :
    ∀ (cs : List Character) (st : HState) (res msg : String) (row col : Nat),
      parse_header_aux st res cs = Except.error (ParseError.SyntaxError msg row col) →
      ∃ pre ch rest, cs = pre ++ ch :: rest ∧ ch.content = ']' ∧ rest ≠ [] := by
  intro cs
  induction cs with
  | nil =>
    intro st res msg row col h
    cases st <;> simp [parse_header_aux] at h
  | cons c cs ih =>
    intro st res msg row col h
    cases st with
    | Idle =>
      by_cases hc : c.content = '['
      · rw [parse_header_aux, if_pos hc] at h
        obtain ⟨pre, ch, rest, hcs, hch, hrest⟩ := ih _ _ _ _ _ h
        exact ⟨c :: pre, ch, rest, by rw [hcs]; rfl, hch, hrest⟩
      · rw [parse_header_aux, if_neg hc] at h
        simp at h
    | Content =>
      by_cases hc : c.content = ']'
      · by_cases hcs : cs = []
        · subst hcs
          rw [parse_header_aux, if_pos hc, if_pos rfl, parse_header_aux] at h
          simp at h
        · exact ⟨[], c, cs, rfl, hc, hcs⟩
      · by_cases hb : c.content = '['
        · rw [parse_header_aux, if_neg hc, if_pos hb] at h
          simp at h
        · by_cases hctl : is_control c.content
          · rw [parse_header_aux, if_neg hc, if_neg hb, if_pos hctl] at h
            simp at h
          · rw [parse_header_aux, if_neg hc, if_neg hb, if_neg hctl] at h
            obtain ⟨pre, ch, rest, hcs, hch, hrest⟩ := ih _ _ _ _ _ h
            exact ⟨c :: pre, ch, rest, by rw [hcs]; rfl, hch, hrest⟩

/-- C1: the list coercer splits the raw value on `','` (not `';'`) and keeps
every segment, dropping no trailing empty element: `Categories=A;B;` is stored
as the single-element list `["A;B;"]`, `A;;B` as `["A;;B"]`, while a
comma-separated `A,B,` becomes `["A", "B", ""]` with its trailing empty
segment kept. -/
theorem C1_list_coercer_splits_on_comma :
    set_optional_list { key := "Categories", locale := none, value := "A;B;", line_number := 0 }
        none
      = Except.ok (some ["A;B;"]) ∧
    set_optional_list { key := "Categories", locale := none, value := "A;;B", line_number := 0 }
        none
      = Except.ok (some ["A;;B"]) ∧
    set_optional_list { key := "Categories", locale := none, value := "A,B,", line_number := 0 }
        none
      = Except.ok (some ["A", "B", ""]) ∧
    parse "[Desktop Entry]\nType=Application\nName=X\nCategories=A;B;"
      = POut.ok
          { entry := { DesktopEntry.empty with
              entry_type := some EntryType.Application
              name := some { default := some "X", variants := [] }
              categories := some ["A;B;"] }
            actions := [] } :=
  ⟨rfl, rfl, rfl, by rfl⟩

/-- C2: a parse whose sub-record (Desktop Action group) has no `Name` line at
all still succeeds; the post-scan validator checks only the primary record,
and the returned action carries `name = none`. -/
theorem C2_action_without_name_accepted :
    parse "[Desktop Entry]\nType=Application\nName=X\n[Desktop Action a]\nExec=e"
      = POut.ok
          { entry := { DesktopEntry.empty with
              entry_type := some EntryType.Application
              name := some { default := some "X", variants := [] } }
            actions := [{ ref_name := "a", name := none, exec := some "e", icon := none }] } := by
  rfl

/-- C3: the `Keywords` coercer is not reentrant: its leading guard rejects any
second `Keywords` line of the group, so `Keywords=a;b` followed by
`Keywords[es]=c;d` fails with a `RepetitiveKey` error at the second line
instead of storing the `"es"` variant. -/
theorem C3_second_keywords_line_rejected :
    parse "[Desktop Entry]\nType=Application\nName=X\nKeywords=a;b\nKeywords[es]=c;d"
      = POut.err (ParseError.RepetitiveKey "Keywords" 4 0) := by
  rfl

/-- C4: a `[Desktop Action x]` header before any `[Desktop Entry]` makes parse
fail with an `InternalError` (not a `FormatError`) citing that header's line:
the `is_entry_found` guard fires first, leaving the `FormatError` branch
unreachable. -/
theorem C4_action_before_entry_gives_internal_error :
    parse "[Desktop Action x]\nName=y"
      = POut.err (ParseError.InternalError
          "it should be able to return error when an action appears before an entry" 0 0) := by
  rfl

/-- C5: any `Type` value other than the recognized literals `Application`,
`Link`, `Directory` coerces to `Unknown` carrying the original string, and
`Type=SomeVendorType` parses successfully with entry type
`Unknown "SomeVendorType"`. -/
theorem C5_unknown_type_preserves_value (v : String)
    (h1 : v ≠ "Application") (h2 : v ≠ "Link") (h3 : v ≠ "Directory") :
    EntryType.from_str v = EntryType.Unknown v ∧
    parse "[Desktop Entry]\nType=SomeVendorType\nName=X"
      = POut.ok
          { entry := { DesktopEntry.empty with
              entry_type := some (EntryType.Unknown "SomeVendorType")
              name := some { default := some "X", variants := [] } }
            actions := [] } := by
  constructor
  · simp [EntryType.from_str, h1, h2, h3]
  · rfl

/-- C5 witness: the general statement applied at `"SomeVendorType"`. -/
theorem C5_unknown_type_preserves_value_witness :
    EntryType.from_str "SomeVendorType" = EntryType.Unknown "SomeVendorType" :=
  (C5_unknown_type_preserves_value "SomeVendorType" (by decide) (by decide) (by decide)).1

/-- C6: the keys spelled `NotShowIn`, `DBusActivatable`, `StartupNotify` and
`StartupWMClass` fall through `fill_entry_val`'s match unchanged (the source's
arms are spelled `DbusActivatable`, `StarupNotify`, `StartupWmClass`, and no
arm exists for `NotShowIn`), while those misspelled arms are the ones that
populate the fields. -/
theorem C6_spec_spelled_keys_ignored :
    fill_entry_val DesktopEntry.empty
        { key := "NotShowIn", locale := none, value := "A", line_number := 0 }
      = Except.ok DesktopEntry.empty ∧
    fill_entry_val DesktopEntry.empty
        { key := "DBusActivatable", locale := none, value := "true", line_number := 0 }
      = Except.ok DesktopEntry.empty ∧
    fill_entry_val DesktopEntry.empty
        { key := "StartupNotify", locale := none, value := "true", line_number := 0 }
      = Except.ok DesktopEntry.empty ∧
    fill_entry_val DesktopEntry.empty
        { key := "StartupWMClass", locale := none, value := "w", line_number := 0 }
      = Except.ok DesktopEntry.empty ∧
    fill_entry_val DesktopEntry.empty
        { key := "DbusActivatable", locale := none, value := "true", line_number := 0 }
      = Except.ok { DesktopEntry.empty with dbus_activatable := some true } ∧
    fill_entry_val DesktopEntry.empty
        { key := "StarupNotify", locale := none, value := "true", line_number := 0 }
      = Except.ok { DesktopEntry.empty with startup_notify := some true } ∧
    fill_entry_val DesktopEntry.empty
        { key := "StartupWmClass", locale := none, value := "w", line_number := 0 }
      = Except.ok { DesktopEntry.empty with startup_wm_class := some "w" } :=
  ⟨rfl, rfl, rfl, rfl, rfl, rfl, rfl⟩

/-- C7 counterexample: in `[Desktop Entry]/Type/Name/Exec=a/Exec=b` the second
`Exec` line is the file's fifth line (1-based number 5), yet the
`RepetitiveKey` error carries row 4 — the 0-based enumeration index — so the
claimed 1-based numbering is false. -/
theorem C7_row_is_not_one_based :
    parse "[Desktop Entry]\nType=Application\nName=X\nExec=a\nExec=b"
      = POut.err (ParseError.RepetitiveKey "Exec" 4 0) ∧ (4 : Nat) ≠ 5 :=
  ⟨by rfl, by decide⟩

/-- C7 (amended): a second `Exec=` line in the same group fails with a
`RepetitiveKey` error whose row is the second line's original 0-based line
index; a string coercer over an already-set field always reports
`RepetitiveKey` at the record's line number, and every retained line keeps the
0-based index of its position among the newline-split lines of the input, even
though blank and comment lines are dropped. -/
theorem C7_duplicate_exec_zero_based_row :
    (∀ (parts : LinePart) (v : String),
        set_optional_str parts (some v)
          = Except.error (ParseError.RepetitiveKey parts.key parts.line_number 0)) ∧
    (∀ (input : String) (l : Line), l ∈ filter_lines input →
        ∃ raw, (split_on_char '\n' input)[l.line_number]? = some raw ∧
          l = Line.from_data raw l.line_number) ∧
    parse "[Desktop Entry]\nType=Application\nName=X\nExec=a\nExec=b"
      = POut.err (ParseError.RepetitiveKey "Exec" 4 0) := by
  refine ⟨fun parts v => rfl, ?_, by rfl⟩
  intro input l hl
  unfold filter_lines at hl
  obtain ⟨p, hp, hfl⟩ := List.mem_map.mp hl
  obtain ⟨hmem, _⟩ := List.mem_filter.mp hp
  refine ⟨p.2, ?_, ?_⟩
  · have hn : l.line_number = p.1 := by rw [← hfl]; rfl
    rw [hn]
    exact List.mem_enum_iff_getElem?.mp hmem
  · have hn : l.line_number = p.1 := by rw [← hfl]; rfl
    rw [hn, ← hfl]

/-- C7 witness: the membership part applied to the line `Exec=b` of the
duplicate-`Exec` input, whose retained index is 4. -/
theorem C7_duplicate_exec_zero_based_row_witness :
    ∃ raw,
      (split_on_char '\n'
        "[Desktop Entry]\nType=Application\nName=X\nExec=a\nExec=b")[(Line.from_data
          "Exec=b" 4).line_number]? = some raw ∧
      Line.from_data "Exec=b" 4 = Line.from_data raw (Line.from_data "Exec=b" 4).line_number :=
  C7_duplicate_exec_zero_based_row.2.1
    "[Desktop Entry]\nType=Application\nName=X\nExec=a\nExec=b"
    (Line.from_data "Exec=b" 4) (by decide)

/-- C8 counterexample: the line `Exec= run me` tokenizes with value
`" run me"` — the leading space is kept, not trimmed — so the claimed
left-trimming of values is false. -/
theorem C8_value_keeps_leading_space :
    split_into_parts (Line.from_data "Exec= run me" 0)
      = Except.ok { key := "Exec", locale := none, value := " run me", line_number := 0 } ∧
    (" run me" : String) ≠ "run me" :=
  ⟨by rfl, by decide⟩

/-- C8 (amended): the tokenizer performs no trimming of its own: once in the
value state it appends every remaining character verbatim (so `Exec= run me`
yields the value `" run me"` with its leading space), and a space before `=`
in the key part is a `SyntaxError` (spaces are not allowed key characters)
rather than being right-trimmed. -/
theorem C8_tokenizer_takes_value_verbatim :
    (∀ (cs : List Character) (key : String) (loc : Option String) (val : String) (n : Nat),
        split_aux SState.Value ⟨key, loc, val, n⟩ cs
          = Except.ok ⟨key, loc, val ++ chars_str cs, n⟩) ∧
    split_into_parts (Line.from_data "Exec= run me" 0)
      = Except.ok { key := "Exec", locale := none, value := " run me", line_number := 0 } ∧
    split_into_parts (Line.from_data "Exec =run" 0)
      = Except.error (ParseError.SyntaxError
          "Keys shouldn't have characters other than A-Za-z0-9-" 0 4) :=
  ⟨split_aux_value_appends_verbatim, by rfl, by rfl⟩

/-- C9: `parse` is not total: an input consisting of a whitespace-only line (a
tab, or two spaces) is retained by `filter_lines`, trimmed to an empty
character sequence by `Line::from_data`, and `Line::line_type`'s `content[0]`
index then panics. -/
theorem C9_whitespace_only_line_panics :
    parse "\t" = POut.panic ∧ parse "  " = POut.panic :=
  ⟨by rfl, by rfl⟩

/-- C10: a header line with no closing `]` is accepted: `[Desktop Entry` maps
to the primary marker exactly as `[Desktop Entry]` does, and any
`SyntaxError` from the header parser can only arise from a `]` that is not
the line's final character. -/
theorem C10_unclosed_header_is_primary_marker :
    parse_header (Line.from_data "[Desktop Entry" 0) = Except.ok Header.DesktopEntry ∧
    parse_header (Line.from_data "[Desktop Entry]" 0) = Except.ok Header.DesktopEntry ∧
    (∀ (l : Line) (msg : String) (row col : Nat),
        parse_header l = Except.error (ParseError.SyntaxError msg row col) →
        ∃ pre ch rest, l.content = pre ++ ch :: rest ∧ ch.content = ']' ∧ rest ≠ []) := by
  refine ⟨by rfl, by rfl, ?_⟩
  intro l msg row col h
  unfold parse_header at h
  cases haux : parse_header_aux HState.Idle "" l.content with
  | error e =>
    rw [haux] at h
    have he : e = ParseError.SyntaxError msg row col := by
      cases h
      rfl
    rw [he] at haux
    exact parse_header_aux_syntax_only_from_inner_bracket l.content HState.Idle "" msg row col haux
  | ok result =>
    rw [haux] at h
    dsimp only at h
    by_cases hde : result = "Desktop Entry"
    · rw [if_pos hde] at h
      cases h
    · rw [if_neg hde] at h
      cases hdp : drop_pre "Desktop Action ".data result.data <;> rw [hdp] at h <;> cases h

/-- C10 witness: the general part applied to the header line `[a]b`, whose `]`
is followed by another character. -/
theorem C10_unclosed_header_is_primary_marker_witness :
    ∃ pre ch rest, (Line.from_data "[a]b" 0).content = pre ++ ch :: rest ∧
      ch.content = ']' ∧ rest ≠ [] :=
  C10_unclosed_header_is_primary_marker.2.2 (Line.from_data "[a]b" 0)
    "nothing is expected after \"]\"" 0 2 (by rfl)

end DesktopFile
